import Mathlib

/-!
Verification of the elpyfi PDT scheduling core.

Shallow embedding of the event dispatcher (services/elpyfi-core/elpyfi-engine/events.py),
the compliance tracker (pdt_tracker.py), the priority allocator (allocator.py) and the
schema-resilient persistence layer (db_writer.py), together with theorems settling the
behavioural claims about them.

Conventions of the embedding:
* Times are whole minutes (plain naturals) since an epoch falling on a Monday at 00:00, so a day is 1440
  minutes and Python's `datetime.weekday()` of a time `t` is `t / 1440 % 7` (0 = Monday).
* Python floats that only flow through comparisons are modelled as rationals.
* A Python method that mutates `self` becomes a function returning the updated state
  next to its result; a method that can raise returns `Except`.
* The dynamically-typed `signal.metadata` attribute is an `Option`: `none` models the
  attribute being entirely absent from the object (so reading it raises
  `AttributeError`), `some m` models a dict of which the admission code observes only
  its truthiness and the truthiness of its `stop_loss` entry.
-/

namespace ElpyFi

def minutesPerDay : Nat := 1440

/-- Python `datetime.weekday()`: 0 = Monday. -/
def weekday (t : Nat) : Nat := t / minutesPerDay % 7

/-- Truthiness view of the metadata dict read by `PDTAllocator.use_emergency_trade`. -/
structure MetaDict where
  truthy : Bool
  stop_loss : Bool
deriving DecidableEq

/-- events.py `SignalEvent`. The dataclass in events.py has no `metadata` field; the
`metadata` component here models the optional *dynamic* attribute some callers attach
(`none` = attribute absent, the state every `SignalEvent(...)` constructor call leaves
the object in). -/
structure SignalEvent where
  strategy : String
  symbol : String
  action : String
  confidence : ℚ
  estimated_profit : ℚ
  timestamp : Nat
  metadata : Option MetaDict
deriving DecidableEq

/-- events.py `TradeRequestEvent`. -/
structure TradeRequestEvent where
  signal_event : SignalEvent
  is_day_trade : Bool
  requested_size : ℚ
deriving DecidableEq

/-- Python exceptions that the embedded code can raise. -/
inductive PyError
  | attributeError
  | valueError
deriving DecidableEq

/-- An event-bus subscriber, reduced to its observable behaviour for one emission:
its identity and whether calling it raises. -/
structure Handler where
  hid : Nat
  raises : Bool
deriving DecidableEq

/-- The loop body of events.py `EventBus.emit`: call each handler in registration
order; a raised exception propagates (there is no try/except in `emit`), so the
handlers after the raising one are not called.  Returns the ids of the handlers that
were invoked and the propagated exception, if any. -/
def run_handlers : List Handler → List Nat × Option PyError
  | [] => ([], none)
  | h :: hs =>
    if h.raises then ([h.hid], some PyError.valueError)
    else
      let r := run_handlers hs
      (h.hid :: r.1, r.2)

/-- events.py `EventBus`: `_subscribers` is a `defaultdict(list)`, modelled as an
association list from topic to handler list (absent key = empty list). -/
structure EventBus where
  subscribers : List (String × List Handler)
deriving DecidableEq

def add_to_topic (event_type : String) (h : Handler) :
    List (String × List Handler) → List (String × List Handler)
  | [] => [(event_type, [h])]
  | (k, hs) :: rest =>
    if k = event_type then (k, hs ++ [h]) :: rest
    else (k, hs) :: add_to_topic event_type h rest

/-- events.py `EventBus.subscribe`: append the handler to the topic's list. -/
def EventBus.subscribe (b : EventBus) (event_type : String) (h : Handler) : EventBus :=
  ⟨add_to_topic event_type h b.subscribers⟩

def EventBus.get_handlers (b : EventBus) (event_type : String) : List Handler :=
  (List.lookup event_type b.subscribers).getD []

/-- events.py `EventBus.emit`: `for handler in self._subscribers[event_type]:
handler(data)` with Python exception semantics. -/
def EventBus.emit (b : EventBus) (event_type : String) : List Nat × Option PyError :=
  run_handlers (b.get_handlers event_type)

/-- pdt_tracker.py `DayTrade` ledger entry; `close_time == open_time` denotes
"not yet closed". -/
structure DayTrade where
  symbol : String
  open_time : Nat
  close_time : Nat
  strategy : String
deriving DecidableEq

/-- allocator.py `AllocationRequest` (score defaults to 0.0 until computed). -/
structure AllocationRequest where
  trade_request : TradeRequestEvent
  score : ℚ
deriving DecidableEq

/-- allocator.py `AllocationRequest.calculate_score`:
score = confidence * estimated_profit * historical_success; returns the score and the
request with its score field set. -/
def calculate_score (a : AllocationRequest) (historical_success : ℚ) :
    ℚ × AllocationRequest :=
  let signal := a.trade_request.signal_event
  let s := signal.confidence * signal.estimated_profit * historical_success
  (s, { a with score := s })

/-- allocator.py `PDTAllocator` state (`emergency_reserve` is initialised to 1). -/
structure PDTAllocator where
  pending_requests : List AllocationRequest
  emergency_reserve : Int
deriving DecidableEq

/-- allocator.py `PDTAllocator.request_allocation`: score the request (with the
default `historical_success=0.8`), append it to the pending queue, and return
False ("always queue for weekly batch"). -/
def PDTAllocator.request_allocation (a : PDTAllocator) (trade_request : TradeRequestEvent) :
    Bool × PDTAllocator :=
  let allocation := (calculate_score ⟨trade_request, 0⟩ (8/10)).2
  (false, { a with pending_requests := a.pending_requests ++ [allocation] })

/-- Insert into a list already sorted by descending score, before the first element of
score below or equal to the inserted one coming *later* -- i.e. before the first
element whose score does not exceed it. -/
def insert_by_score (x : AllocationRequest) : List AllocationRequest → List AllocationRequest
  | [] => [x]
  | y :: ys => if y.score ≤ x.score then x :: y :: ys else y :: insert_by_score x ys

/-- Python `list.sort(key=lambda x: x.score, reverse=True)`: a *stable* sort by
descending score.  An insertion sort that moves each element past strictly
greater-scored elements only is stable and descending, and a stable descending sort of
a list is unique, so this computes the same list as CPython's Timsort. -/
def sort_by_score_desc : List AllocationRequest → List AllocationRequest
  | [] => []
  | x :: xs => insert_by_score x (sort_by_score_desc xs)

/-- allocator.py `PDTAllocator.get_weekly_allocations`: keep the emergency reserve,
sort pending by score descending, approve the top `trades_to_allocate` requests, and
clear the queue unconditionally. -/
def PDTAllocator.get_weekly_allocations (a : PDTAllocator) (available_trades : Int) :
    List TradeRequestEvent × PDTAllocator :=
  let trades_to_allocate : Int := max 0 (available_trades - a.emergency_reserve)
  let sorted := sort_by_score_desc a.pending_requests
  let approved := (sorted.take trades_to_allocate.toNat).map (fun r => r.trade_request)
  (approved, { a with pending_requests := [] })

/-- allocator.py `PDTAllocator.use_emergency_trade`:
`signal.action == "sell" and signal.metadata and signal.metadata.get("stop_loss")`.
Reading `signal.metadata` on an object without that attribute raises
`AttributeError`; the conjunction short-circuits, so the attribute is only read when
the action is "sell". -/
def use_emergency_trade (trade_request : TradeRequestEvent) : Except PyError Bool :=
  let signal := trade_request.signal_event
  if signal.action = "sell" then
    match signal.metadata with
    | none => Except.error PyError.attributeError
    | some m => Except.ok (m.truthy && m.stop_loss)
  else Except.ok false

/-- events.py `PositionEvent`. -/
structure PositionEvent where
  symbol : String
  action : String
  size : ℚ
  price : ℚ
  timestamp : Nat
  order_id : String
deriving DecidableEq

/-- The reason strings attached to approval / rejection events in pdt_tracker.py,
as a closed enumeration:
"Day trade slot available", "Emergency stop-loss exit",
"Swing trade - no PDT restrictions", and the rejection
"PDT limit reached: n/3 trades used. Request queued for weekly allocation." -/
inductive ApprovalReason
  | slot_available
  | emergency_stop_loss
  | swing_trade
  | limit_reached (trades_used : Nat)
deriving DecidableEq

/-- events.py `TradeApprovalEvent`. -/
structure TradeApprovalEvent where
  trade_request : TradeRequestEvent
  approved : Bool
  reason : ApprovalReason
deriving DecidableEq

/-- pdt_tracker.py `PDTTracker` state. -/
structure PDTTracker where
  day_trades : List DayTrade
  week_start : Nat
  allocator : PDTAllocator
deriving DecidableEq

/-- pdt_tracker.py `PDTTracker._get_week_start`:
`today - timedelta(days=today.weekday())` -- the current wall-clock time minus whole
days back to Monday (the time of day is kept, this is not Monday midnight). -/
def get_week_start (now : Nat) : Nat :=
  let days_since_monday := weekday now
  now - minutesPerDay * days_since_monday

/-- pdt_tracker.py `PDTTracker.__init__` (at wall-clock time `now`). -/
def PDTTracker.init (now : Nat) : PDTTracker :=
  ⟨[], get_week_start now, ⟨[], 1⟩⟩

/-- pdt_tracker.py `PDTTracker.get_trades_this_week`: recompute the week boundary; if
it advanced past the stored anchor, move the anchor and drop ledger entries opened
before the new boundary; return the count of entries opened at or after the anchor. -/
def PDTTracker.get_trades_this_week (s : PDTTracker) (now : Nat) : Nat × PDTTracker :=
  let current_week_start := get_week_start now
  let s1 :=
    if s.week_start < current_week_start then
      { s with week_start := current_week_start,
               day_trades := s.day_trades.filter
                 (fun t => decide (current_week_start ≤ t.open_time)) }
    else s
  ((s1.day_trades.filter (fun t => decide (s1.week_start ≤ t.open_time))).length, s1)

/-- pdt_tracker.py `PDTTracker.get_remaining_trades`: `max(0, 3 - trades_this_week)`. -/
def PDTTracker.get_remaining_trades (s : PDTTracker) (now : Nat) : Int × PDTTracker :=
  let r := s.get_trades_this_week now
  (max 0 (3 - (r.1 : Int)), r.2)

/-- pdt_tracker.py `PDTTracker.can_day_trade`: `get_remaining_trades() > 0`. -/
def PDTTracker.can_day_trade (s : PDTTracker) (now : Nat) : Bool × PDTTracker :=
  let r := s.get_remaining_trades now
  (decide (0 < r.1), r.2)

/-- pdt_tracker.py `PDTTracker._approve_trade`: emit an approved `TradeApprovalEvent`
and, when the request is a day trade, append a ledger entry whose open and close time
are both `datetime.now()`. -/
def PDTTracker.approve_trade (s : PDTTracker) (request_event : TradeRequestEvent)
    (reason : ApprovalReason) (now : Nat) : PDTTracker × List TradeApprovalEvent :=
  let s1 :=
    if request_event.is_day_trade then
      { s with day_trades := s.day_trades ++
          [⟨request_event.signal_event.symbol, now, now,
            request_event.signal_event.strategy⟩] }
    else s
  (s1, [⟨request_event, true, reason⟩])

/-- pdt_tracker.py `PDTTracker._reject_trade`. -/
def PDTTracker.reject_trade (s : PDTTracker) (request_event : TradeRequestEvent)
    (reason : ApprovalReason) : PDTTracker × List TradeApprovalEvent :=
  (s, [⟨request_event, false, reason⟩])

/-- pdt_tracker.py `PDTTracker.handle_day_trade_request`.  The rejection branch
recomputes `get_trades_this_week()` for the reason message, exactly as the source
interpolates it into the rejection string. -/
def PDTTracker.handle_day_trade_request (s : PDTTracker)
    (request_event : TradeRequestEvent) (now : Nat) :
    Except PyError (PDTTracker × List TradeApprovalEvent) :=
  if request_event.is_day_trade then
    match use_emergency_trade request_event with
    | Except.error e => Except.error e
    | Except.ok true =>
      Except.ok (s.approve_trade request_event ApprovalReason.emergency_stop_loss now)
    | Except.ok false =>
      let c := s.can_day_trade now
      if c.1 then
        Except.ok (c.2.approve_trade request_event ApprovalReason.slot_available now)
      else
        let q := c.2.allocator.request_allocation request_event
        let s2 := { c.2 with allocator := q.2 }
        let g := s2.get_trades_this_week now
        Except.ok (g.2.reject_trade request_event (ApprovalReason.limit_reached g.1))
  else
    Except.ok (s.approve_trade request_event ApprovalReason.swing_trade now)

/-- The loop of pdt_tracker.py `PDTTracker.record_day_trade`: update the close time of
the first not-yet-closed entry with a matching symbol, then break. -/
def close_first_open (symbol : String) (ts : Nat) : List DayTrade → List DayTrade
  | [] => []
  | t :: rest =>
    if t.symbol = symbol ∧ t.close_time = t.open_time then
      { t with close_time := ts } :: rest
    else t :: close_first_open symbol ts rest

/-- pdt_tracker.py `PDTTracker.record_day_trade`. -/
def PDTTracker.record_day_trade (s : PDTTracker) (position_event : PositionEvent) :
    PDTTracker :=
  { s with day_trades :=
      close_first_open position_event.symbol position_event.timestamp s.day_trades }

/-- The fields of the dict returned by pdt_tracker.py `PDTTracker.get_status` that are
derived from tracker state (the constant `risk_rules` and `emergency_trades_reserved`
entries are omitted). -/
structure PDTStatus where
  trades_used : Nat
  trades_remaining : Int
  can_day_trade : Bool
  week_start : Nat
  recent_trades : List DayTrade
  pending_allocations : Nat
deriving DecidableEq

/-- pdt_tracker.py `PDTTracker.get_status`: the dict fields are evaluated in order, so
`get_trades_this_week` runs (and may reset the week) before the others read state. -/
def PDTTracker.get_status (s : PDTTracker) (now : Nat) : PDTStatus × PDTTracker :=
  let u := s.get_trades_this_week now
  let r := u.2.get_remaining_trades now
  let c := r.2.can_day_trade now
  let s3 := c.2
  (⟨u.1, r.1, c.1, s3.week_start,
    s3.day_trades.drop (s3.day_trades.length - 5),
    s3.allocator.pending_requests.length⟩, s3)

/-- An external stimulus delivered to the tracker through the event bus: a
day-trade-request event (carrying the wall-clock time at which it is handled) or a
position-closed event. -/
inductive EngineEvent
  | request (r : TradeRequestEvent) (t : Nat)
  | close (p : PositionEvent)
deriving DecidableEq

def eventTime : EngineEvent → Nat
  | .request _ t => t
  | .close p => p.timestamp

/-- One tracker transition.  An exception raised by `handle_day_trade_request`
(`AttributeError` in `use_emergency_trade`) happens before any state mutation, so the
state is unchanged in that case. -/
def PDTTracker.step (s : PDTTracker) : EngineEvent → PDTTracker
  | .request r t =>
    match s.handle_day_trade_request r t with
    | Except.ok p => p.1
    | Except.error _ => s
  | .close p => s.record_day_trade p

def PDTTracker.run (s : PDTTracker) : List EngineEvent → PDTTracker
  | [] => s
  | e :: es => (s.step e).run es

/-- The events occur at nondecreasing wall-clock times, starting no earlier than the
given time. -/
def chronological : Nat → List EngineEvent → Bool
  | _, [] => true
  | t, e :: es => decide (t ≤ eventTime e) && chronological (eventTime e) es

/-- The request is not approved through the emergency bypass (it either raises or
returns False from `use_emergency_trade`). -/
def not_emergency (r : TradeRequestEvent) : Bool :=
  match use_emergency_trade r with
  | Except.ok true => false
  | _ => true

/-- No request in the list is approved through the emergency bypass. -/
def ordinaryOnly : List EngineEvent → Bool
  | [] => true
  | .request r _ :: es => not_emergency r && ordinaryOnly es
  | .close _ :: es => ordinaryOnly es

/-- Number of ledger entries not yet closed (`close_time == open_time`). -/
def unclosed_count (s : PDTTracker) : Nat :=
  (s.day_trades.filter (fun t => t.close_time == t.open_time)).length

abbrev ColumnSet := List String

/-- The columns actually present in the backing store, per expected table
(`none` = the table does not exist). -/
structure DbSchema where
  positions : Option ColumnSet
  signals : Option ColumnSet
deriving DecidableEq

/-- The store-side write errors distinguished by db_writer.py `_parse_db_error`
(both map to the "schema_mismatch" error type; only `UndefinedColumn` carries a
column detail). -/
inductive DbError
  | undefined_column (column table : String)
  | undefined_table (table : String)
deriving DecidableEq

/-- An INSERT against a table: fails with `UndefinedTable` when the table is absent,
with `UndefinedColumn` naming the first listed column the table lacks, and otherwise
succeeds returning a row id (the concrete id is immaterial and modelled as 1). -/
def exec_insert (table_cols : Option ColumnSet) (table : String)
    (columns : List String) : Except DbError Nat :=
  match table_cols with
  | none => Except.error (DbError.undefined_table table)
  | some present =>
    match columns.find? (fun c => !present.contains c) with
    | some c => Except.error (DbError.undefined_column c table)
    | none => Except.ok 1

/-- db_writer.py `DatabaseWriter` state relevant to the write path:
`available_columns` (dict from table name to known-present columns) and the
`schema_validated` flag. -/
structure DatabaseWriter where
  available_columns : List (String × ColumnSet)
  schema_validated : Bool
deriving DecidableEq

def EXPECTED_POSITIONS_COLUMNS : ColumnSet :=
  ["id", "symbol", "quantity", "entry_price", "current_price",
   "unrealized_pl", "realized_pl", "strategy", "status", "order_id", "closed_at"]

def EXPECTED_SIGNALS_COLUMNS : ColumnSet :=
  ["id", "strategy", "symbol", "action", "confidence",
   "expected_profit", "metadata", "created_at"]

/-- Dict assignment `m[k] = v` on an association list. -/
def set_assoc (m : List (String × ColumnSet)) (k : String) (v : ColumnSet) :
    List (String × ColumnSet) :=
  match m with
  | [] => [(k, v)]
  | (k', v') :: rest => if k' = k then (k, v) :: rest else (k', v') :: set_assoc rest k v

/-- db_writer.py `DatabaseWriter._validate_schema`: for each expected table that
exists, record its present columns in `available_columns`; set `schema_validated`
only when no table or column is missing (on a mismatch the source raises
`SchemaMismatchError` after having updated `available_columns`). -/
def validate_schema (w : DatabaseWriter) (db : DbSchema) : DatabaseWriter :=
  let w1 := match db.positions with
    | some cols => { w with available_columns := set_assoc w.available_columns "positions" cols }
    | none => w
  let w2 := match db.signals with
    | some cols => { w1 with available_columns := set_assoc w1.available_columns "signals" cols }
    | none => w1
  let ok :=
    (match db.positions with
     | some cols => EXPECTED_POSITIONS_COLUMNS.all (fun c => cols.contains c)
     | none => false) &&
    (match db.signals with
     | some cols => EXPECTED_SIGNALS_COLUMNS.all (fun c => cols.contains c)
     | none => false)
  if ok then { w2 with schema_validated := true } else w2

/-- The always-included column list of db_writer.py `write_position_opened`. -/
def CORE_POSITION_COLUMNS : List String :=
  ["symbol", "quantity", "entry_price", "current_price", "unrealized_pl",
   "strategy", "status"]

/-- Result of a `write_position_opened` call: the returned id (None on a dropped
write), the updated writer state, and the column list of every INSERT attempt made,
in order. -/
structure WriteOutcome where
  position_id : Option Nat
  writer : DatabaseWriter
  attempts : List (List String)
deriving DecidableEq

/-- db_writer.py `DatabaseWriter.write_position_opened` against store schema `db`.
Value parameters that do not influence the control flow (symbol, quantity, prices)
are omitted; the column lists actually sent are recorded in `attempts`.
Control flow from the source: include `order_id` when the cached column set for
"positions" contains it *or is empty/unknown*; on an `UndefinedColumn("order_id")`
rejection, drop `order_id` from the cached set -- but only if the cache already has a
"positions" entry -- and retry exactly once without it; any other store error (and a
failed retry) falls through to `_validate_schema` and returns None. -/
def write_position_opened (w : DatabaseWriter) (db : DbSchema) (_order_id : String) :
    WriteOutcome :=
  let positions_columns := (List.lookup "positions" w.available_columns).getD []
  let columns :=
    if positions_columns.contains "order_id" || positions_columns.isEmpty then
      CORE_POSITION_COLUMNS ++ ["order_id"]
    else CORE_POSITION_COLUMNS
  match exec_insert db.positions "positions" columns with
  | Except.ok id => ⟨some id, w, [columns]⟩
  | Except.error e =>
    match e with
    | DbError.undefined_column c _ =>
      if c = "order_id" ∧ columns.contains "order_id" then
        let dropped :=
          ((List.lookup "positions" w.available_columns).getD []).filter
            (fun x => !(x == "order_id"))
        let w1 :=
          if (List.lookup "positions" w.available_columns).isSome then
            { w with available_columns := set_assoc w.available_columns "positions" dropped }
          else w
        match exec_insert db.positions "positions" CORE_POSITION_COLUMNS with
        | Except.ok id => ⟨some id, w1, [columns, CORE_POSITION_COLUMNS]⟩
        | Except.error _ =>
          ⟨none, validate_schema w1 db, [columns, CORE_POSITION_COLUMNS]⟩
      else ⟨none, validate_schema w db, [columns]⟩
    | DbError.undefined_table _ => ⟨none, validate_schema w db, [columns]⟩

/-- db_writer.py `SchemaMismatchError` payload. -/
structure SchemaMismatchError where
  message : String
  missing_columns : List String
  missing_tables : List String
  schema_issues : List (String × List String)
deriving DecidableEq

/-- A corrective statement emitted by `get_fix_sql`, as structured data: exactly the
`create_table` constructor renders to a string containing "CREATE TABLE"; the others
render to ALTER TABLE / UPDATE statements. -/
inductive SqlStatement
  | create_table (table : String)
  | add_column (table column col_type : String)
  | backfill_order_id (table column : String)
  | set_not_null (table column : String)
deriving DecidableEq

/-- The `column_types` dict of `get_fix_sql`, with defaulted lookup
VARCHAR(255); `not_null` models the `'NOT NULL' in col_type` substring test. -/
structure ColumnType where
  base : String
  not_null : Bool
deriving DecidableEq

def column_types (col : String) : ColumnType :=
  if col = "order_id" then ⟨"VARCHAR(100)", true⟩
  else if col = "closed_at" then ⟨"TIMESTAMP", false⟩
  else if col = "metadata" then ⟨"JSONB", false⟩
  else if col = "expected_profit" then ⟨"DECIMAL(18,8)", false⟩
  else ⟨"VARCHAR(255)", false⟩

/-- The per-table branch of the missing-tables loop of `get_fix_sql`: a CREATE TABLE
statement is appended only for the two known tables. -/
def create_table_statements (table : String) : List SqlStatement :=
  if table = "positions" then [SqlStatement.create_table "positions"]
  else if table = "signals" then [SqlStatement.create_table "signals"]
  else []

/-- The per-column branch of the missing-columns loop of `get_fix_sql`. -/
def add_column_statements (table col : String) : List SqlStatement :=
  let ct := column_types col
  if ct.not_null ∧ col ≠ "order_id" then
    [SqlStatement.add_column table col ct.base]
  else if col = "order_id" then
    [SqlStatement.add_column table col "VARCHAR(100)",
     SqlStatement.backfill_order_id table col,
     SqlStatement.set_not_null table col]
  else [SqlStatement.add_column table col ct.base]

/-- db_writer.py `SchemaMismatchError.get_fix_sql`: CREATE TABLE statements for the
missing tables, then ALTER TABLE statements for the missing columns of existing
tables. -/
def SchemaMismatchError.get_fix_sql (e : SchemaMismatchError) : List SqlStatement :=
  (e.missing_tables.flatMap create_table_statements) ++
    (e.schema_issues.flatMap (fun p => p.2.flatMap (add_column_statements p.1)))

/-! Concrete inputs used by witnesses and counterexamples. -/

/-- An ordinary buy day-trade request (cannot qualify for the emergency bypass). -/
def buy_request : TradeRequestEvent := ⟨⟨"momentum", "AAPL", "buy", 9/10, 5/100, 0, none⟩, true, 1/10⟩

/-- A sell day-trade request whose signal object, as constructed by the
`SignalEvent` dataclass of events.py, has no `metadata` attribute. -/
def sell_request_no_metadata : TradeRequestEvent :=
  ⟨⟨"momentum", "AAPL", "sell", 9/10, 5/100, 0, none⟩, true, 1/10⟩

/-- An emergency stop-loss exit: a sell whose metadata dict is truthy and marks
`stop_loss`. -/
def emergency_request : TradeRequestEvent :=
  ⟨⟨"momentum", "TSLA", "sell", 9/10, -(5/100), 0, some ⟨true, true⟩⟩, true, 1/10⟩

/-- A bus with two subscribers on one topic, the first of which raises. -/
def two_handler_bus : EventBus :=
  (EventBus.subscribe (EventBus.subscribe ⟨[]⟩ "signal_generated" ⟨0, true⟩)
    "signal_generated" ⟨1, false⟩)

/-! Theorems settling the claims. -/

/-- Claim C2 (code bug): `EventBus.emit` has no try/except, so when the first of two
handlers subscribed to a topic raises, the exception propagates to the caller of
`emit` and the second handler is never invoked for that emission -- contradicting
both the claim and the repository's own test
(test_events.py::test_handler_exception asserts the second handler is still called).
Evaluated at the failing input: handler 0 raises, handler 1 is registered after it;
only handler 0 runs and the error escapes. -/
theorem emit_error_propagates_and_skips_later_handlers :
    EventBus.emit two_handler_bus "signal_generated" = ([0], some PyError.valueError) ∧
    (1 : Nat) ∉ (EventBus.emit two_handler_bus "signal_generated").1 := by
  decide

/-- Claim C3 (code bug): for a day-trade request wrapping a sell `SignalEvent`,
`handle_day_trade_request` does not complete: the emergency-use check evaluates
`signal.metadata` on an object without that attribute (the events.py dataclass has no
such field) and raises `AttributeError`, which propagates -- contradicting the
never-fails-terminally / conservative-default semantics the spec states.  Evaluated
at the failing input. -/
theorem handle_sell_request_raises_attribute_error :
    (PDTTracker.init 0).handle_day_trade_request sell_request_no_metadata 0 =
      Except.error PyError.attributeError := by
  rfl

/-- No statement produced for a missing column is a CREATE TABLE statement. -/
theorem create_table_not_mem_add_column (tb c t : String) :
    SqlStatement.create_table t ∉ add_column_statements tb c := by
  unfold add_column_statements
  split_ifs <;> simp_all

/-- Claim C10: whenever "signals" is among the missing tables of a
`SchemaMismatchError`, `get_fix_sql` emits a CREATE TABLE statement for "signals",
and every CREATE TABLE statement it emits names a table from the missing-table
list. -/
theorem get_fix_sql_creates_exactly_missing_tables (e : SchemaMismatchError)
    (h : "signals" ∈ e.missing_tables) :
    SqlStatement.create_table "signals" ∈ e.get_fix_sql ∧
    ∀ t, SqlStatement.create_table t ∈ e.get_fix_sql → t ∈ e.missing_tables := by
  constructor
  · apply List.mem_append_left
    rw [List.mem_flatMap]
    exact ⟨"signals", h, by simp [create_table_statements]⟩
  · intro t ht
    rcases List.mem_append.mp ht with h1 | h2
    · rcases List.mem_flatMap.mp h1 with ⟨tb, htb, hstmt⟩
      unfold create_table_statements at hstmt
      split_ifs at hstmt with hp hs
      · simp only [List.mem_singleton, SqlStatement.create_table.injEq] at hstmt
        rw [hstmt, ← hp]; exact htb
      · simp only [List.mem_singleton, SqlStatement.create_table.injEq] at hstmt
        rw [hstmt, ← hs]; exact htb
      · simp at hstmt
    · rcases List.mem_flatMap.mp h2 with ⟨p, _, hstmt⟩
      rcases List.mem_flatMap.mp hstmt with ⟨c, _, hstmt2⟩
      exact absurd hstmt2 (create_table_not_mem_add_column p.1 c t)

/-- Witness for C10 at a concrete error whose only missing table is "signals". -/
theorem get_fix_sql_creates_exactly_missing_tables_witness :
    SqlStatement.create_table "signals" ∈
      (⟨"", [], ["signals"], []⟩ : SchemaMismatchError).get_fix_sql :=
  (get_fix_sql_creates_exactly_missing_tables ⟨"", [], ["signals"], []⟩ (by decide)).1

/-- Closed form of `get_trades_this_week` with the week-reset branch surfaced. -/
theorem get_trades_this_week_def (s : PDTTracker) (now : Nat) :
    s.get_trades_this_week now =
      if s.week_start < get_week_start now then
        ((s.day_trades.filter (fun t => decide (get_week_start now ≤ t.open_time))).length,
         { s with week_start := get_week_start now,
                  day_trades := s.day_trades.filter
                    (fun t => decide (get_week_start now ≤ t.open_time)) })
      else
        ((s.day_trades.filter (fun t => decide (s.week_start ≤ t.open_time))).length, s) := by
  unfold PDTTracker.get_trades_this_week
  by_cases h : s.week_start < get_week_start now
  · simp [h, List.filter_filter]
  · simp [h]

/-- Querying twice at the same wall-clock time is idempotent: the second query
returns the same count and does not change the state again. -/
theorem get_trades_this_week_idem (s : PDTTracker) (now : Nat) :
    ((s.get_trades_this_week now).2).get_trades_this_week now =
      s.get_trades_this_week now := by
  by_cases h : s.week_start < get_week_start now
  · simp [get_trades_this_week_def, h, lt_irrefl, List.filter_filter]
  · simp [get_trades_this_week_def, h]

/-- The allocator component is read and written independently of the ledger query. -/
theorem get_trades_this_week_allocator_set (s : PDTTracker) (a : PDTAllocator)
    (now : Nat) :
    ({ s with allocator := a } : PDTTracker).get_trades_this_week now =
      ((s.get_trades_this_week now).1,
       { (s.get_trades_this_week now).2 with allocator := a }) := by
  by_cases h : s.week_start < get_week_start now <;>
    simp [get_trades_this_week_def, h]

/-- Claim C8: the lazily recomputed week boundary keeps the querying call's
wall-clock time of day (it is "Monday at now's time of day", not Monday midnight):
its minute-of-day equals now's and its weekday is Monday.  Whenever the computed
boundary is strictly ahead of the stored anchor the reset branch evicts every entry
opened before it.  Consequently `trades_used` can drop between two queries inside one
calendar week: in the concrete state below, a query at minute 570 of a Monday counts
one trade, and a later query at minute 600 of the same Monday -- same calendar week,
no new Monday -- resets the window and counts zero. -/
theorem week_boundary_keeps_time_of_day_and_can_reset_within_week :
    (∀ t : Nat, get_week_start t % minutesPerDay = t % minutesPerDay ∧
      weekday (get_week_start t) = 0) ∧
    (∀ (s : PDTTracker) (t : Nat),
      (s.get_trades_this_week t).2.day_trades =
        (if s.week_start < get_week_start t then
          s.day_trades.filter (fun e => decide (get_week_start t ≤ e.open_time))
        else s.day_trades)) ∧
    ((⟨[⟨"AAPL", 570, 570, "momentum"⟩], 570, ⟨[], 1⟩⟩ :
        PDTTracker).get_trades_this_week 570).1 = 1 ∧
    ((⟨[⟨"AAPL", 570, 570, "momentum"⟩], 570, ⟨[], 1⟩⟩ :
        PDTTracker).get_trades_this_week 570).2 =
      ⟨[⟨"AAPL", 570, 570, "momentum"⟩], 570, ⟨[], 1⟩⟩ ∧
    ((⟨[⟨"AAPL", 570, 570, "momentum"⟩], 570, ⟨[], 1⟩⟩ :
        PDTTracker).get_trades_this_week 600).1 = 0 ∧
    get_week_start 570 / minutesPerDay = get_week_start 600 / minutesPerDay := by
  refine ⟨?_, ?_, by decide, by decide, by decide, by decide⟩
  · intro t
    constructor
    · show (t - 1440 * (t / 1440 % 7)) % 1440 = t % 1440
      omega
    · show (t - 1440 * (t / 1440 % 7)) / 1440 % 7 = 0
      omega
  · intro s t
    rw [get_trades_this_week_def]
    split <;> simp

/-- Claim C7: if the recomputed boundary has advanced past the stored anchor and
every ledger entry was opened before the new boundary, a status query drops all
entries, moves the anchor to the new boundary, reports zero trades used, three
remaining, and `can_day_trade = true` -- whatever the prior ledger size. -/
theorem status_query_after_rollover_resets (s : PDTTracker) (now : Nat)
    (hadv : s.week_start < get_week_start now)
    (hall : ∀ e ∈ s.day_trades, e.open_time < get_week_start now) :
    (s.get_status now).1.trades_used = 0 ∧
    (s.get_status now).1.trades_remaining = 3 ∧
    (s.get_status now).1.can_day_trade = true ∧
    (s.get_status now).2.week_start = get_week_start now ∧
    (s.get_status now).2.day_trades = [] := by
  have hnil : s.day_trades.filter (fun e => decide (get_week_start now ≤ e.open_time)) = [] := by
    refine List.filter_eq_nil_iff.mpr ?_
    intro e he
    simpa using Nat.not_le.mpr (hall e he)
  have hreset : s.get_trades_this_week now =
      (0, ⟨[], get_week_start now, s.allocator⟩) := by
    rw [get_trades_this_week_def, if_pos hadv, hnil]
    rfl
  have hsecond : (⟨[], get_week_start now, s.allocator⟩ :
      PDTTracker).get_trades_this_week now =
      (0, ⟨[], get_week_start now, s.allocator⟩) := by
    rw [get_trades_this_week_def]
    simp
  have hrem : (⟨[], get_week_start now, s.allocator⟩ :
      PDTTracker).get_remaining_trades now =
      (3, ⟨[], get_week_start now, s.allocator⟩) := by
    unfold PDTTracker.get_remaining_trades
    rw [hsecond]
    simp
  have hcan : (⟨[], get_week_start now, s.allocator⟩ :
      PDTTracker).can_day_trade now =
      (true, ⟨[], get_week_start now, s.allocator⟩) := by
    unfold PDTTracker.can_day_trade
    rw [hrem]
    simp
  simp [PDTTracker.get_status, hreset, hrem, hcan]

/-- Witness for C7: a tracker anchored at Monday 09:30 with one trade opened then,
queried at Monday 10:00 of the same day. -/
theorem status_query_after_rollover_resets_witness :
    ((⟨[⟨"AAPL", 570, 570, "momentum"⟩], 570, ⟨[], 1⟩⟩ :
        PDTTracker).get_status 600).1.trades_used = 0 ∧
    ((⟨[⟨"AAPL", 570, 570, "momentum"⟩], 570, ⟨[], 1⟩⟩ :
        PDTTracker).get_status 600).1.trades_remaining = 3 ∧
    ((⟨[⟨"AAPL", 570, 570, "momentum"⟩], 570, ⟨[], 1⟩⟩ :
        PDTTracker).get_status 600).1.can_day_trade = true ∧
    ((⟨[⟨"AAPL", 570, 570, "momentum"⟩], 570, ⟨[], 1⟩⟩ :
        PDTTracker).get_status 600).2.week_start = get_week_start 600 ∧
    ((⟨[⟨"AAPL", 570, 570, "momentum"⟩], 570, ⟨[], 1⟩⟩ :
        PDTTracker).get_status 600).2.day_trades = [] :=
  status_query_after_rollover_resets
    ⟨[⟨"AAPL", 570, 570, "momentum"⟩], 570, ⟨[], 1⟩⟩ 600
    (by decide) (by decide)

/-- The admission gate computes `remaining > 0` with `remaining = max(0, 3 - used)`,
so it is exactly `used < 3`: the emergency reserve is not subtracted on this path. -/
theorem can_day_trade_eq (s : PDTTracker) (now : Nat) :
    s.can_day_trade now =
      (decide ((s.get_trades_this_week now).1 < 3), (s.get_trades_this_week now).2) := by
  unfold PDTTracker.can_day_trade PDTTracker.get_remaining_trades
  dsimp only
  congr 1
  simp only [decide_eq_decide]
  omega

/-- Claim C1 (amended): an ordinary (non-emergency) day-trade request is approved
exactly when the number of day trades used this week is strictly below the full
weekly limit 3 -- not below limit minus reserve = 2, since `can_day_trade` never
subtracts the emergency reserve; on approval a ledger entry is appended, and
otherwise (only from the fourth ordinary request of a week on) the request is queued
with the allocator and rejected for the current cycle. -/
theorem ordinary_request_approved_iff_under_limit (s : PDTTracker)
    (r : TradeRequestEvent) (now : Nat)
    (hday : r.is_day_trade = true)
    (hord : use_emergency_trade r = Except.ok false) :
    ((s.get_trades_this_week now).1 < 3 →
      s.handle_day_trade_request r now =
        Except.ok
          ({ (s.get_trades_this_week now).2 with
              day_trades := (s.get_trades_this_week now).2.day_trades ++
                [⟨r.signal_event.symbol, now, now, r.signal_event.strategy⟩] },
           [⟨r, true, ApprovalReason.slot_available⟩])) ∧
    (3 ≤ (s.get_trades_this_week now).1 →
      s.handle_day_trade_request r now =
        Except.ok
          ({ (s.get_trades_this_week now).2 with
              allocator :=
                ((s.get_trades_this_week now).2.allocator.request_allocation r).2 },
           [⟨r, false, ApprovalReason.limit_reached (s.get_trades_this_week now).1⟩])) := by
  rcases h : s.get_trades_this_week now with ⟨n, s1⟩
  have hidem := get_trades_this_week_idem s now
  rw [h] at hidem
  have hcan : s.can_day_trade now = (decide (n < 3), s1) := by
    rw [can_day_trade_eq, h]
  constructor
  · intro hlt
    simp [PDTTracker.handle_day_trade_request, hday, hord, hcan, hlt,
      PDTTracker.approve_trade]
  · intro hge
    have hnlt : ¬ n < 3 := not_lt.mpr hge
    have hset : ({ s1 with allocator := (s1.allocator.request_allocation r).2 } :
        PDTTracker).get_trades_this_week now =
        (n, { s1 with allocator := (s1.allocator.request_allocation r).2 }) := by
      rw [get_trades_this_week_allocator_set, hidem]
    simp [PDTTracker.handle_day_trade_request, hday, hord, hcan, hnlt, hset,
      PDTTracker.reject_trade]

/-- Witness for C1 (amended) at an empty tracker: the first ordinary request is
approved with a ledger entry appended. -/
theorem ordinary_request_approved_iff_under_limit_witness :
    (PDTTracker.init 0).handle_day_trade_request buy_request 0 =
      Except.ok
        (⟨[⟨"AAPL", 0, 0, "momentum"⟩], 0, ⟨[], 1⟩⟩,
         [⟨buy_request, true, ApprovalReason.slot_available⟩]) :=
  (ordinary_request_approved_iff_under_limit (PDTTracker.init 0) buy_request 0
      rfl rfl).1 (by decide)

/-- The tracker after two ordinary day-trade approvals in the same week. -/
def two_ordinary_approvals_state : PDTTracker :=
  (PDTTracker.init 0).run
    [EngineEvent.request buy_request 0, EngineEvent.request buy_request 0]

/-- Counterexample to C1 as stated: with the default configuration, after two
ordinary approvals in the same week (trades used = 2, which is not below
limit - reserve = 2), a third ordinary day-trade request is *approved* -- it is not
queued with the allocator and not rejected.  So approval is not equivalent to
"used < limit - reserve". -/
theorem third_ordinary_request_is_still_approved :
    (two_ordinary_approvals_state.get_trades_this_week 0).1 = 2 ∧
    two_ordinary_approvals_state.handle_day_trade_request buy_request 0 =
      Except.ok
        (⟨[⟨"AAPL", 0, 0, "momentum"⟩, ⟨"AAPL", 0, 0, "momentum"⟩,
           ⟨"AAPL", 0, 0, "momentum"⟩], 0, ⟨[], 1⟩⟩,
         [⟨buy_request, true, ApprovalReason.slot_available⟩]) ∧
    (two_ordinary_approvals_state.step
        (EngineEvent.request buy_request 0)).allocator.pending_requests = [] := by
  refine ⟨by decide, ?_, by decide⟩
  rfl

/-- `get_week_start` never lies in the future of its argument. -/
theorem get_week_start_le (t : Nat) : get_week_start t ≤ t :=
  Nat.sub_le _ _

/-- Claim C4 (amended): an emergency-exit day-trade request is always approved,
bypassing the `can_day_trade` gate entirely, whatever the tracker state; but
`_approve_trade` appends a ledger entry for it just as for an ordinary day trade, so
`trades_used` for the current week *increases by one* -- an emergency exit does
consume an ordinary slot. -/
theorem emergency_request_always_approved_but_counts (s : PDTTracker)
    (r : TradeRequestEvent) (now : Nat)
    (hday : r.is_day_trade = true)
    (hemg : use_emergency_trade r = Except.ok true)
    (hanchor : s.week_start ≤ now) :
    s.handle_day_trade_request r now =
      Except.ok
        ({ s with day_trades := s.day_trades ++
            [⟨r.signal_event.symbol, now, now, r.signal_event.strategy⟩] },
         [⟨r, true, ApprovalReason.emergency_stop_loss⟩]) ∧
    (({ s with day_trades := s.day_trades ++
          [⟨r.signal_event.symbol, now, now, r.signal_event.strategy⟩] } :
        PDTTracker).get_trades_this_week now).1 =
      (s.get_trades_this_week now).1 + 1 := by
  constructor
  · simp [PDTTracker.handle_day_trade_request, hday, hemg, PDTTracker.approve_trade]
  · by_cases hb : s.week_start < get_week_start now
    · simp [get_trades_this_week_def, hb, List.filter_append,
        decide_eq_true_eq, get_week_start_le now]
    · simp [get_trades_this_week_def, hb, List.filter_append,
        decide_eq_true_eq, hanchor]

/-- Witness for C4 (amended) at an empty tracker and a stop-loss sell. -/
theorem emergency_request_always_approved_but_counts_witness :
    (PDTTracker.init 0).handle_day_trade_request emergency_request 0 =
      Except.ok
        (⟨[⟨"TSLA", 0, 0, "momentum"⟩], 0, ⟨[], 1⟩⟩,
         [⟨emergency_request, true, ApprovalReason.emergency_stop_loss⟩]) ∧
    ((⟨[⟨"TSLA", 0, 0, "momentum"⟩], 0, ⟨[], 1⟩⟩ :
        PDTTracker).get_trades_this_week 0).1 =
      ((PDTTracker.init 0).get_trades_this_week 0).1 + 1 :=
  emergency_request_always_approved_but_counts (PDTTracker.init 0)
    emergency_request 0 rfl rfl (by decide)

/-- Counterexample to C4 as stated: approving an emergency exit does *not* leave
`trades_used` unchanged -- on an empty tracker it is 0 before and 1 after the
emergency approval. -/
theorem emergency_approval_changes_trades_used :
    ((PDTTracker.init 0).get_trades_this_week 0).1 = 0 ∧
    (((PDTTracker.init 0).step
        (EngineEvent.request emergency_request 0)).get_trades_this_week 0).1 = 1 := by
  decide

/-- Inserting keeps a permutation of consing. -/
theorem insert_by_score_perm (x : AllocationRequest) (l : List AllocationRequest) :
    (insert_by_score x l).Perm (x :: l) := by
  induction l with
  | nil => exact List.Perm.refl _
  | cons y ys ih =>
    unfold insert_by_score
    split
    · exact List.Perm.refl _
    · exact (List.Perm.cons y ih).trans (List.Perm.swap x y ys)

/-- The embedded sort permutes the pending queue. -/
theorem sort_by_score_desc_perm (l : List AllocationRequest) :
    (sort_by_score_desc l).Perm l := by
  induction l with
  | nil => exact List.Perm.refl _
  | cons x xs ih =>
    exact (insert_by_score_perm x (sort_by_score_desc xs)).trans (List.Perm.cons x ih)

/-- Insertion preserves descending order by score. -/
theorem insert_by_score_pairwise (x : AllocationRequest) (l : List AllocationRequest)
    (h : l.Pairwise (fun a b => b.score ≤ a.score)) :
    (insert_by_score x l).Pairwise (fun a b => b.score ≤ a.score) := by
  induction l with
  | nil => simp [insert_by_score]
  | cons y ys ih =>
    rcases List.pairwise_cons.mp h with ⟨hy, hys⟩
    unfold insert_by_score
    split
    · rename_i hc
      refine List.pairwise_cons.mpr ⟨?_, h⟩
      intro z hz
      rcases List.mem_cons.mp hz with hz | hz
      · rw [hz]; exact hc
      · exact (hy z hz).trans hc
    · rename_i hc
      refine List.pairwise_cons.mpr ⟨?_, ih hys⟩
      intro z hz
      rcases List.mem_cons.mp ((insert_by_score_perm x ys).mem_iff.mp hz) with hz1 | hz1
      · rw [hz1]; exact le_of_not_le hc
      · exact hy z hz1

/-- The embedded sort is descending by score. -/
theorem sort_by_score_desc_pairwise (l : List AllocationRequest) :
    (sort_by_score_desc l).Pairwise (fun a b => b.score ≤ a.score) := by
  induction l with
  | nil => simp [sort_by_score_desc]
  | cons x xs ih => exact insert_by_score_pairwise x (sort_by_score_desc xs) ih

theorem insert_by_score_filter_pos (x : AllocationRequest)
    (l : List AllocationRequest) (c : ℚ) (hx : x.score = c) :
    (insert_by_score x l).filter (fun r => decide (r.score = c)) =
      x :: l.filter (fun r => decide (r.score = c)) := by
  induction l with
  | nil => simp [insert_by_score, hx]
  | cons y ys ih =>
    unfold insert_by_score
    split
    · simp [List.filter_cons, hx]
    · rename_i hc
      have hy : ¬ (y.score = c) := by
        rw [← hx]
        intro e
        exact hc (le_of_eq e)
      simp [List.filter_cons, hy, hx, ih]

theorem insert_by_score_filter_neg (x : AllocationRequest)
    (l : List AllocationRequest) (c : ℚ) (hx : ¬ x.score = c) :
    (insert_by_score x l).filter (fun r => decide (r.score = c)) =
      l.filter (fun r => decide (r.score = c)) := by
  induction l with
  | nil => simp [insert_by_score, hx]
  | cons y ys ih =>
    unfold insert_by_score
    split
    · simp [List.filter_cons, hx]
    · simp [List.filter_cons, ih]

/-- Stability of the embedded sort: within each score class the arrival order of the
pending queue is preserved. -/
theorem sort_by_score_desc_stable (l : List AllocationRequest) (c : ℚ) :
    (sort_by_score_desc l).filter (fun r => decide (r.score = c)) =
      l.filter (fun r => decide (r.score = c)) := by
  induction l with
  | nil => rfl
  | cons x xs ih =>
    unfold sort_by_score_desc
    by_cases hx : x.score = c
    · rw [insert_by_score_filter_pos _ _ _ hx, ih, List.filter_cons]
      simp [hx]
    · rw [insert_by_score_filter_neg _ _ _ hx, ih, List.filter_cons]
      simp [hx]

/-- Claim C5 (amended): `get_weekly_allocations` first subtracts the emergency
reserve (1) from the available-slot count M, then approves the top
`max 0 (M - 1)` pending requests of the stable descending sort -- exactly the
`min (max 0 (M-1)) N` highest-scoring requests with ties broken by arrival order --
and unconditionally clears the queue.  All N pending requests are approved only when
M exceeds N, and none when M ≤ 1 (not M ≤ 0). -/
theorem weekly_batch_reserves_emergency_slot (q : List AllocationRequest) (M : Int) :
    ((⟨q, 1⟩ : PDTAllocator).get_weekly_allocations M).2.pending_requests = [] ∧
    ((⟨q, 1⟩ : PDTAllocator).get_weekly_allocations M).1 =
      ((sort_by_score_desc q).take (max 0 (M - 1)).toNat).map
        (fun r => r.trade_request) ∧
    (sort_by_score_desc q).Perm q ∧
    (sort_by_score_desc q).Pairwise (fun a b => b.score ≤ a.score) ∧
    (∀ c : ℚ, (sort_by_score_desc q).filter (fun r => decide (r.score = c)) =
      q.filter (fun r => decide (r.score = c))) ∧
    (M ≤ 1 → ((⟨q, 1⟩ : PDTAllocator).get_weekly_allocations M).1 = []) ∧
    ((q.length : Int) < M →
      ((⟨q, 1⟩ : PDTAllocator).get_weekly_allocations M).1 =
        (sort_by_score_desc q).map (fun r => r.trade_request)) := by
  refine ⟨rfl, rfl, sort_by_score_desc_perm q, sort_by_score_desc_pairwise q,
    sort_by_score_desc_stable q, ?_, ?_⟩
  · intro hM
    have hz : (max 0 (M - 1)).toNat = 0 := by omega
    simp [PDTAllocator.get_weekly_allocations, hz]
  · intro hM
    have hlen : (sort_by_score_desc q).length = q.length :=
      (sort_by_score_desc_perm q).length_eq
    have hle : (sort_by_score_desc q).length ≤ (max 0 (M - 1)).toNat := by
      omega
    simp [PDTAllocator.get_weekly_allocations, List.take_of_length_le hle]

/-- Witness for C5 (amended): on an empty queue with no available slots the batch
approves nothing and clears the queue. -/
theorem weekly_batch_reserves_emergency_slot_witness :
    ((⟨[], 1⟩ : PDTAllocator).get_weekly_allocations 0).2.pending_requests = [] ∧
    ((⟨[], 1⟩ : PDTAllocator).get_weekly_allocations 0).1 = [] := by
  have h := weekly_batch_reserves_emergency_slot [] 0
  exact ⟨h.1, h.2.2.2.2.2.1 (by norm_num)⟩

/-- An already-scored pending entry, as enqueued by the allocator. -/
def scored_request (sym : String) (sc : ℚ) : AllocationRequest :=
  ⟨⟨⟨"strat", sym, "buy", 1, 1, 0, none⟩, true, 1/10⟩, sc⟩

/-- The spec scenario queue: five requests with scores [10, 50, 5, 90, 30]. -/
def spec_scenario_queue : List AllocationRequest :=
  [scored_request "A" 10, scored_request "B" 50, scored_request "C" 5,
   scored_request "D" 90, scored_request "E" 30]

/-- Counterexample to C5 as stated: with N = 5 pending requests scoring
[10, 50, 5, 90, 30] and M = 2 available slots (0 < M < N), the claim requires the
two highest-scoring requests (90 and 50) to be approved, but the code subtracts the
emergency reserve and approves only the single request scoring 90. -/
theorem weekly_batch_with_two_slots_approves_only_one :
    ((⟨spec_scenario_queue, 1⟩ : PDTAllocator).get_weekly_allocations 2).1 =
      [(scored_request "D" 90).trade_request] ∧
    ((⟨spec_scenario_queue, 1⟩ : PDTAllocator).get_weekly_allocations 2).1.length =
      1 := by
  refine ⟨?_, by decide⟩
  rfl

/-- Closing a ledger entry does not change the ledger's size. -/
theorem close_first_open_length (sym : String) (ts : Nat) (l : List DayTrade) :
    (close_first_open sym ts l).length = l.length := by
  induction l with
  | nil => rfl
  | cons t rest ih =>
    unfold close_first_open
    split <;> simp [ih]

/-- Closing a ledger entry does not change any open time. -/
theorem close_first_open_open_time (sym : String) (ts : Nat) (l : List DayTrade) :
    (close_first_open sym ts l).map (fun t => t.open_time) =
      l.map (fun t => t.open_time) := by
  induction l with
  | nil => rfl
  | cons t rest ih =>
    unfold close_first_open
    split <;> simp [ih]

/-- The inductive invariant of the tracker at wall-clock time `t`: the anchor is not
in the future, every ledger entry was opened at or after the anchor, and the ledger
holds at most the weekly limit of 3 entries. -/
def TrackerInv (s : PDTTracker) (t : Nat) : Prop :=
  s.week_start ≤ t ∧
  (∀ e ∈ s.day_trades, s.week_start ≤ e.open_time) ∧
  s.day_trades.length ≤ 3

/-- Effect of a ledger query under the invariant's premises: the updated anchor is
still not in the future, all surviving entries are at or after it, the returned
count is exactly the ledger size, the ledger did not grow, and the allocator is
untouched. -/
theorem get_trades_this_week_inv (s : PDTTracker) (now : Nat)
    (hanchor : s.week_start ≤ now)
    (hentries : ∀ e ∈ s.day_trades, s.week_start ≤ e.open_time) :
    (s.get_trades_this_week now).2.week_start ≤ now ∧
    (∀ e ∈ (s.get_trades_this_week now).2.day_trades,
        (s.get_trades_this_week now).2.week_start ≤ e.open_time) ∧
    (s.get_trades_this_week now).1 =
      (s.get_trades_this_week now).2.day_trades.length ∧
    (s.get_trades_this_week now).2.day_trades.length ≤ s.day_trades.length ∧
    (s.get_trades_this_week now).2.allocator = s.allocator := by
  by_cases hb : s.week_start < get_week_start now
  · rw [get_trades_this_week_def, if_pos hb]
    dsimp only
    refine ⟨get_week_start_le now, ?_, rfl, List.length_filter_le _ _, rfl⟩
    intro e he
    have := (List.mem_filter.mp he).2
    simpa using this
  · rw [get_trades_this_week_def, if_neg hb]
    dsimp only
    have hall : s.day_trades.filter (fun t => decide (s.week_start ≤ t.open_time)) =
        s.day_trades :=
      List.filter_eq_self.mpr (fun e he => by simpa using hentries e he)
    rw [hall]
    exact ⟨hanchor, hentries, rfl, le_refl _, rfl⟩

/-- A non-day-trade request leaves the tracker state unchanged. -/
theorem step_swing_eq (s : PDTTracker) (r : TradeRequestEvent) (tv : Nat)
    (hday : r.is_day_trade = false) :
    s.step (EngineEvent.request r tv) = s := by
  simp [PDTTracker.step, PDTTracker.handle_day_trade_request, hday,
    PDTTracker.approve_trade]

/-- One engine event preserves the tracker invariant, provided it happens no earlier
than the invariant's time and (for requests) is not emergency-approved. -/
theorem step_preserves_inv (s : PDTTracker) (t : Nat) (ev : EngineEvent)
    (hinv : TrackerInv s t) (hle : t ≤ eventTime ev)
    (hord : ∀ r tv, ev = EngineEvent.request r tv → not_emergency r = true) :
    TrackerInv (s.step ev) (eventTime ev) := by
  obtain ⟨hanchor, hentries, hlen⟩ := hinv
  cases ev with
  | close p =>
    refine ⟨hanchor.trans hle, ?_, ?_⟩
    · intro e he
      have hm : e.open_time ∈
          (close_first_open p.symbol p.timestamp s.day_trades).map
            (fun u => u.open_time) :=
        List.mem_map_of_mem _ he
      rw [close_first_open_open_time] at hm
      rcases List.mem_map.mp hm with ⟨e2, he2, heq⟩
      rw [← heq]
      exact hentries e2 he2
    · show (close_first_open p.symbol p.timestamp s.day_trades).length ≤ 3
      rw [close_first_open_length]
      exact hlen
  | request r tv =>
    have hanchor2 : s.week_start ≤ tv := hanchor.trans hle
    rcases hEu : use_emergency_trade r with e | b
    · -- the AttributeError case: the state is unchanged
      have hstep : s.step (EngineEvent.request r tv) = s := by
        cases hday : r.is_day_trade with
        | false => exact step_swing_eq s r tv hday
        | true =>
          simp [PDTTracker.step, PDTTracker.handle_day_trade_request, hday, hEu]
      rw [hstep]
      exact ⟨hanchor2, hentries, hlen⟩
    · cases b with
      | true =>
        exact absurd (hord r tv rfl) (by simp [not_emergency, hEu])
      | false =>
        cases hday : r.is_day_trade with
        | false =>
          rw [step_swing_eq s r tv hday]
          exact ⟨hanchor2, hentries, hlen⟩
        | true =>
          have hc1 := ordinary_request_approved_iff_under_limit s r tv hday hEu
          have hq := get_trades_this_week_inv s tv hanchor2 hentries
          by_cases hn : (s.get_trades_this_week tv).1 < 3
          · have hstep : s.step (EngineEvent.request r tv) =
                { (s.get_trades_this_week tv).2 with
                    day_trades := (s.get_trades_this_week tv).2.day_trades ++
                      [⟨r.signal_event.symbol, tv, tv, r.signal_event.strategy⟩] } := by
              simp [PDTTracker.step, hc1.1 hn]
            rw [hstep]
            refine ⟨hq.1, ?_, ?_⟩
            · intro e he
              rcases List.mem_append.mp he with he | he
              · exact hq.2.1 e he
              · have heq : e =
                    ⟨r.signal_event.symbol, tv, tv, r.signal_event.strategy⟩ :=
                  List.mem_singleton.mp he
                rw [heq]
                exact hq.1
            · show ((s.get_trades_this_week tv).2.day_trades ++ _).length ≤ 3
              rw [List.length_append]
              have hcount : (s.get_trades_this_week tv).1 =
                  (s.get_trades_this_week tv).2.day_trades.length := hq.2.2.1
              simp only [List.length_singleton]
              omega
          · have hstep : s.step (EngineEvent.request r tv) =
                { (s.get_trades_this_week tv).2 with
                    allocator :=
                      (((s.get_trades_this_week tv).2.allocator).request_allocation
                        r).2 } := by
              simp [PDTTracker.step, hc1.2 (not_lt.mp hn)]
            rw [hstep]
            exact ⟨hq.1, hq.2.1, hq.2.2.2.1.trans hlen⟩

/-- Any chronological, emergency-free event sequence preserves the invariant. -/
theorem run_preserves_inv (evs : List EngineEvent) :
    ∀ (s : PDTTracker) (t : Nat), TrackerInv s t →
      chronological t evs = true → ordinaryOnly evs = true →
      ∃ u, TrackerInv (s.run evs) u := by
  induction evs with
  | nil => exact fun s t h _ _ => ⟨t, h⟩
  | cons e es ih =>
    intro s t h hchron hordy
    simp only [chronological, Bool.and_eq_true, decide_eq_true_eq] at hchron
    obtain ⟨hc1, hc2⟩ := hchron
    have hord1 : ∀ r tv, e = EngineEvent.request r tv → not_emergency r = true := by
      intro r tv hre
      rw [hre] at hordy
      simp only [ordinaryOnly, Bool.and_eq_true] at hordy
      exact hordy.1
    have hordy2 : ordinaryOnly es = true := by
      cases e with
      | request r tv =>
        simp only [ordinaryOnly, Bool.and_eq_true] at hordy
        exact hordy.2
      | close p => simpa [ordinaryOnly] using hordy
    exact ih (s.step e) (eventTime e)
      (step_preserves_inv s t e h hc1 hord1) hc2 hordy2

/-- Claim C6 (amended): over any sequence of admission requests and position-close
events delivered at nondecreasing wall-clock times in which *no request qualifies for
the emergency bypass*, the ledger of a freshly initialised tracker never exceeds 3
entries, hence never holds more than 3 unclosed day trades.  (Emergency approvals
break this bound: see the counterexample.) -/
theorem ordinary_ledger_never_exceeds_weekly_limit (t0 : Nat)
    (evs : List EngineEvent)
    (hchron : chronological t0 evs = true) (hordy : ordinaryOnly evs = true) :
    ((PDTTracker.init t0).run evs).day_trades.length ≤ 3 ∧
    unclosed_count ((PDTTracker.init t0).run evs) ≤ 3 := by
  have hinit : TrackerInv (PDTTracker.init t0) t0 := by
    refine ⟨get_week_start_le t0, ?_, ?_⟩ <;> simp [PDTTracker.init]
  rcases run_preserves_inv evs _ _ hinit hchron hordy with ⟨u, hu⟩
  refine ⟨hu.2.2, ?_⟩
  exact le_trans (List.length_filter_le _ _) hu.2.2

/-- Witness for C6 (amended): two ordinary approvals and a close, in order. -/
theorem ordinary_ledger_never_exceeds_weekly_limit_witness :
    ((PDTTracker.init 0).run
        [EngineEvent.request buy_request 0, EngineEvent.request buy_request 5,
         EngineEvent.close ⟨"AAPL", "closed", 1/10, 100, 9, "ord1"⟩]).day_trades.length ≤ 3 ∧
    unclosed_count ((PDTTracker.init 0).run
        [EngineEvent.request buy_request 0, EngineEvent.request buy_request 5,
         EngineEvent.close ⟨"AAPL", "closed", 1/10, 100, 9, "ord1"⟩]) ≤ 3 :=
  ordinary_ledger_never_exceeds_weekly_limit 0
    [EngineEvent.request buy_request 0, EngineEvent.request buy_request 5,
     EngineEvent.close ⟨"AAPL", "closed", 1/10, 100, 9, "ord1"⟩]
    (by decide) (by decide)

/-- Counterexample to C6 as stated: three ordinary approvals exhaust the weekly
limit, and a subsequent emergency-exit approval still appends -- leaving the ledger
with 4 unclosed day trades, above the weekly limit of 3. -/
theorem emergency_sequence_exceeds_unclosed_limit :
    unclosed_count ((PDTTracker.init 0).run
        [EngineEvent.request buy_request 0, EngineEvent.request buy_request 0,
         EngineEvent.request buy_request 0,
         EngineEvent.request emergency_request 0]) = 4 := by
  decide

/-- `find?` skips a prefix on which the predicate fails. -/
theorem find?_append_singleton (p : String → Bool) (l : List String) (x : String)
    (h : ∀ c ∈ l, p c = false) :
    (l ++ [x]).find? p = if p x then some x else none := by
  induction l with
  | nil =>
    cases hx : p x <;> simp [List.find?, hx]
  | cons y ys ih =>
    have hy : p y = false := h y (List.mem_cons_self y ys)
    simp only [List.cons_append, List.find?, hy]
    exact ih (fun c hc => h c (List.mem_cons_of_mem y hc))

/-- An INSERT naming only present columns succeeds. -/
theorem exec_insert_ok (present : ColumnSet) (table : String) (cols : List String)
    (h : ∀ c ∈ cols, c ∈ present) :
    exec_insert (some present) table cols = Except.ok 1 := by
  have hfind : cols.find? (fun c => !present.contains c) = none :=
    List.find?_eq_none.mpr (fun c hc => by simp [h c hc])
  show (match cols.find? (fun c => !present.contains c) with
        | some c => Except.error (DbError.undefined_column c table)
        | none => Except.ok 1) = Except.ok 1
  rw [hfind]

/-- An INSERT whose only absent column is the trailing `order_id` is rejected with
an UndefinedColumn error naming it. -/
theorem exec_insert_order_id_error (present : ColumnSet) (table : String)
    (hcore : ∀ c ∈ CORE_POSITION_COLUMNS, c ∈ present)
    (hnoid : "order_id" ∉ present) :
    exec_insert (some present) table (CORE_POSITION_COLUMNS ++ ["order_id"]) =
      Except.error (DbError.undefined_column "order_id" table) := by
  have hfind : (CORE_POSITION_COLUMNS ++ ["order_id"]).find?
      (fun c => !present.contains c) = some "order_id" := by
    rw [find?_append_singleton _ _ _ (fun c hc => by simp [hcore c hc])]
    simp [hnoid]
  show (match (CORE_POSITION_COLUMNS ++ ["order_id"]).find?
          (fun c => !present.contains c) with
        | some c => Except.error (DbError.undefined_column c table)
        | none => Except.ok 1) =
      Except.error (DbError.undefined_column "order_id" table)
  rw [hfind]

/-- Dict assignment is read back by lookup. -/
theorem lookup_set_assoc (m : List (String × ColumnSet)) (k : String) (v : ColumnSet) :
    List.lookup k (set_assoc m k v) = some v := by
  induction m with
  | nil => simp [set_assoc, List.lookup]
  | cons p rest ih =>
    rcases p with ⟨k1, v1⟩
    unfold set_assoc
    by_cases hk : k1 = k
    · simp [hk, List.lookup]
    · have hbeq : (k == k1) = false := by
        simp [Ne.symm hk]
      simp [hk, List.lookup, hbeq, ih]

/-- After filtering a name out of a list it is no longer contained. -/
theorem not_mem_filter_ne (l : List String) (a : String) :
    a ∉ l.filter (fun x => !(x == a)) := by
  intro hmem
  have := List.mem_filter.mp hmem
  simp at this

/-- Scenario 1: the cache already records `order_id` as absent (non-empty cached
column set without it): the single INSERT goes out without `order_id` and succeeds,
with the writer state untouched. -/
theorem write_position_opened_cache_absent (w : DatabaseWriter) (db : DbSchema)
    (oid : String) (present cols0 : ColumnSet)
    (hdb : db.positions = some present)
    (hcore : ∀ c ∈ CORE_POSITION_COLUMNS, c ∈ present)
    (hlook : List.lookup "positions" w.available_columns = some cols0)
    (hne : cols0 ≠ [])
    (hnotin : "order_id" ∉ cols0) :
    write_position_opened w db oid = ⟨some 1, w, [CORE_POSITION_COLUMNS]⟩ := by
  have hempty : cols0.isEmpty = false := by
    cases cols0 with
    | nil => exact absurd rfl hne
    | cons a l => rfl
  simp [write_position_opened, hlook, hnotin, hempty, hdb,
    exec_insert_ok present "positions" CORE_POSITION_COLUMNS hcore]

/-- Scenario 2: the cache stalely records `order_id` as present but the store lacks
it: the first INSERT is rejected, the cached set is updated to drop `order_id`, and
exactly one retry without the column succeeds. -/
theorem write_position_opened_retry_updates_cache (w : DatabaseWriter) (db : DbSchema)
    (oid : String) (present cols0 : ColumnSet)
    (hdb : db.positions = some present)
    (hcore : ∀ c ∈ CORE_POSITION_COLUMNS, c ∈ present)
    (hnoid : "order_id" ∉ present)
    (hlook : List.lookup "positions" w.available_columns = some cols0)
    (hin : "order_id" ∈ cols0) :
    write_position_opened w db oid =
      ⟨some 1,
       { w with available_columns :=
          (set_assoc w.available_columns "positions"
            (cols0.filter (fun x => !(x == "order_id")))) },
       [CORE_POSITION_COLUMNS ++ ["order_id"], CORE_POSITION_COLUMNS]⟩ := by
  have hoid : "order_id" ∈ CORE_POSITION_COLUMNS ++ ["order_id"] := by
    simp
  simp [write_position_opened, hlook, hin, hdb,
    exec_insert_order_id_error present "positions" hcore hnoid, hoid,
    exec_insert_ok present "positions" CORE_POSITION_COLUMNS hcore]

/-- Scenario 3: the cache has no entry for "positions" at all (the state after
validation found the table missing, or validation never ran): the first INSERT
includes `order_id`, is rejected, the retry succeeds -- but the cache is *not*
updated, because the source only rewrites the cached entry when the key is already
present. -/
theorem write_position_opened_no_cache_entry (w : DatabaseWriter) (db : DbSchema)
    (oid : String) (present : ColumnSet)
    (hdb : db.positions = some present)
    (hcore : ∀ c ∈ CORE_POSITION_COLUMNS, c ∈ present)
    (hnoid : "order_id" ∉ present)
    (hlook : List.lookup "positions" w.available_columns = none) :
    write_position_opened w db oid =
      ⟨some 1, w, [CORE_POSITION_COLUMNS ++ ["order_id"], CORE_POSITION_COLUMNS]⟩ := by
  have hoid : "order_id" ∈ CORE_POSITION_COLUMNS ++ ["order_id"] := by
    simp
  simp [write_position_opened, hlook, hdb,
    exec_insert_order_id_error present "positions" hcore hnoid, hoid,
    exec_insert_ok present "positions" CORE_POSITION_COLUMNS hcore]

/-- Claim C9 (amended): against a positions table holding all core columns but not
`order_id`: (1) when the cached column set is non-empty and lacks `order_id`, the
write is built without `order_id` from the start -- one attempt, no fallback;
(2) when the cached set stalely contains `order_id`, the rejected write is retried
exactly once without the column, the cached set is updated to drop it, and -- when
the updated cached set is non-empty -- the next write skips the column with no
retry; (3) but when the cache has no entry for the table, the retry still happens
and succeeds while the cache is left unchanged, so the next write triggers the same
fallback round-trip again (the claim's "subsequent write does not re-trigger the
fallback" fails in exactly this reachable case). -/
theorem write_position_opened_fallback_behaviour (w : DatabaseWriter) (db : DbSchema)
    (oid : String) (present : ColumnSet)
    (hdb : db.positions = some present)
    (hcore : ∀ c ∈ CORE_POSITION_COLUMNS, c ∈ present)
    (hnoid : "order_id" ∉ present) :
    (∀ cols0, List.lookup "positions" w.available_columns = some cols0 →
      cols0 ≠ [] → "order_id" ∉ cols0 →
      (write_position_opened w db oid).attempts = [CORE_POSITION_COLUMNS] ∧
      (write_position_opened w db oid).position_id = some 1 ∧
      (write_position_opened w db oid).writer = w) ∧
    (∀ cols0, List.lookup "positions" w.available_columns = some cols0 →
      "order_id" ∈ cols0 →
      (write_position_opened w db oid).attempts =
        [CORE_POSITION_COLUMNS ++ ["order_id"], CORE_POSITION_COLUMNS] ∧
      (write_position_opened w db oid).position_id = some 1 ∧
      List.lookup "positions" (write_position_opened w db oid).writer.available_columns =
        some (cols0.filter (fun x => !(x == "order_id"))) ∧
      (cols0.filter (fun x => !(x == "order_id")) ≠ [] →
        (write_position_opened (write_position_opened w db oid).writer db oid).attempts =
          [CORE_POSITION_COLUMNS])) ∧
    (List.lookup "positions" w.available_columns = none →
      (write_position_opened w db oid).attempts =
        [CORE_POSITION_COLUMNS ++ ["order_id"], CORE_POSITION_COLUMNS] ∧
      (write_position_opened w db oid).position_id = some 1 ∧
      (write_position_opened w db oid).writer = w ∧
      (write_position_opened (write_position_opened w db oid).writer db oid).attempts =
        [CORE_POSITION_COLUMNS ++ ["order_id"], CORE_POSITION_COLUMNS]) := by
  refine ⟨?_, ?_, ?_⟩
  · intro cols0 hlook hne hnotin
    rw [write_position_opened_cache_absent w db oid present cols0 hdb hcore hlook
      hne hnotin]
    exact ⟨rfl, rfl, rfl⟩
  · intro cols0 hlook hin
    rw [write_position_opened_retry_updates_cache w db oid present cols0 hdb hcore
      hnoid hlook hin]
    refine ⟨rfl, rfl, ?_, ?_⟩
    · exact lookup_set_assoc w.available_columns "positions" _
    · intro hne2
      rw [write_position_opened_cache_absent _ db oid present
        (cols0.filter (fun x => !(x == "order_id"))) hdb hcore
        (lookup_set_assoc w.available_columns "positions" _) hne2
        (not_mem_filter_ne cols0 "order_id")]
  · intro hlook
    rw [write_position_opened_no_cache_entry w db oid present hdb hcore hnoid hlook]
    refine ⟨rfl, rfl, rfl, ?_⟩
    rw [write_position_opened_no_cache_entry w db oid present hdb hcore hnoid hlook]

/-- Witness for C9 (amended), scenario 3 at a concrete empty cache: both the first
and the second write make the two-attempt fallback round-trip. -/
theorem write_position_opened_fallback_behaviour_witness :
    (write_position_opened ⟨[], false⟩ ⟨some CORE_POSITION_COLUMNS, none⟩
        "ORD1").attempts =
      [CORE_POSITION_COLUMNS ++ ["order_id"], CORE_POSITION_COLUMNS] ∧
    (write_position_opened ⟨[], false⟩ ⟨some CORE_POSITION_COLUMNS, none⟩
        "ORD1").position_id = some 1 ∧
    (write_position_opened ⟨[], false⟩ ⟨some CORE_POSITION_COLUMNS, none⟩
        "ORD1").writer = ⟨[], false⟩ ∧
    (write_position_opened
        (write_position_opened ⟨[], false⟩ ⟨some CORE_POSITION_COLUMNS, none⟩
          "ORD1").writer
        ⟨some CORE_POSITION_COLUMNS, none⟩ "ORD1").attempts =
      [CORE_POSITION_COLUMNS ++ ["order_id"], CORE_POSITION_COLUMNS] :=
  (write_position_opened_fallback_behaviour ⟨[], false⟩
      ⟨some CORE_POSITION_COLUMNS, none⟩ "ORD1" CORE_POSITION_COLUMNS
      rfl (by decide) (by decide)).2.2 rfl

/-- Counterexample to C9 as stated: with no cached entry for the positions table and
a store lacking `order_id`, the first write needs the fallback round-trip (two INSERT
attempts), succeeds, but leaves the cached present-column set without a positions
entry -- and the *second* write performs the very same two-attempt fallback again,
contradicting "a subsequent write for the same table does not re-trigger the
fallback round-trip". -/
theorem second_write_retriggers_fallback :
    (write_position_opened ⟨[], false⟩ ⟨some CORE_POSITION_COLUMNS, none⟩
        "ORD1").attempts.length = 2 ∧
    List.lookup "positions"
        (write_position_opened ⟨[], false⟩ ⟨some CORE_POSITION_COLUMNS, none⟩
          "ORD1").writer.available_columns = none ∧
    (write_position_opened
        (write_position_opened ⟨[], false⟩ ⟨some CORE_POSITION_COLUMNS, none⟩
          "ORD1").writer
        ⟨some CORE_POSITION_COLUMNS, none⟩ "ORD1").attempts.length = 2 := by
  decide

end ElpyFi
